import Mathlib

/-!
Verification of the GasChecker gas oracle (src/app.py) against its
natural-language specification.

The embedding models the core retrieval engine:
* JSON values (`JVal`) as returned by `json.loads`;
* one endpoint attempt's observable outcome (`Attempt`): either the request
  raised somewhere before a parsed body was available (`exn`), or it produced
  a parsed JSON value (`ok data`);
* `fetch_gas_price` (app.py lines 75-126), instrumented with the list of
  endpoints actually attempted (`fetchTrace`);
* the aggregator tools `gas_all`, `gas_recommend` (lines 136-165) and the
  premium endpoints `premium_all`, `premium_recommend` (lines 221-299).

Python floats are modelled as exact rationals: the spec describes `gweiValue`
as a decimal (wei / 1e9 rounded to 4 fractional digits), and for the integer
wei values and the thresholds 5, 20, 50 considered here IEEE double division
by 1e9 is exact enough that the comparison results coincide with the rational
ones. Interpolated f-strings keep their dynamic components structurally.
-/

/-- A parsed JSON value, as produced by Python's `json.loads`. -/
inductive JVal where
  | null : JVal
  | bool (b : Bool) : JVal
  | num (q : ℚ) : JVal
  | str (s : String) : JVal
  | arr (xs : List JVal) : JVal
  | obj (fields : List (String × JVal)) : JVal

/-- Observable outcome of one endpoint attempt (app.py lines 83-98): either
some exception was raised while building/issuing the request or reading and
JSON-decoding the body (`exn`), or a parsed JSON value was obtained (`ok`). -/
inductive Attempt where
  | exn : Attempt
  | ok (data : JVal) : Attempt

/-- The network environment: what each RPC endpoint URL answers. -/
def Net : Type := String → Attempt

/-- Hex digit value, as accepted by Python `int(_, 16)`. -/
def hexDigitVal (c : Char) : Option Nat :=
  if '0' ≤ c ∧ c ≤ '9' then some (c.toNat - '0'.toNat)
  else if 'a' ≤ c ∧ c ≤ 'f' then some (c.toNat - 'a'.toNat + 10)
  else if 'A' ≤ c ∧ c ≤ 'F' then some (c.toNat - 'A'.toNat + 10)
  else none

/-- Fold a non-empty list of hex digits, most significant first. -/
def hexDigitsVal : List Char → Option Nat
  | [] => none
  | [c] => hexDigitVal c
  | c :: cs => do
      let d ← hexDigitVal c
      let r ← hexDigitsVal cs
      pure (d * 16 ^ cs.length + r)

/-- Strip an optional `0x` / `0X` prefix. -/
def stripHexMark : List Char → List Char
  | '0' :: 'x' :: cs => cs
  | '0' :: 'X' :: cs => cs
  | cs => cs

/-- Python `int(s, 16)`: optional surrounding whitespace, optional sign,
optional `0x`/`0X` prefix, then a non-empty run of hex digits.  (Python
additionally allows `_` separators between digits; such inputs do not occur
here and are rejected, which only makes an attempt fail soft.) -/
def pyIntHex (s : String) : Option Int :=
  let cs := (s.toList.dropWhile Char.isWhitespace).reverse.dropWhile Char.isWhitespace
  let cs := cs.reverse
  match cs with
  | '-' :: rest => (hexDigitsVal (stripHexMark rest)).map (fun n => -(n : Int))
  | '+' :: rest => (hexDigitsVal (stripHexMark rest)).map (fun n => (n : Int))
  | rest => (hexDigitsVal (stripHexMark rest)).map (fun n => (n : Int))

/-- Substring test on character lists (Python `needle in haystack` for
strings). -/
def hasSubstr (needle : List Char) : List Char → Bool
  | [] => needle.isEmpty
  | c :: rest => needle.isPrefixOf (c :: rest) || hasSubstr needle rest

/-- Python `"result" in data` (app.py line 100): key membership for a dict,
element membership for a list, substring test for a string; raises TypeError
(modelled `none`) on any other JSON value. -/
def containsResult : JVal → Option Bool
  | .obj fields => some (fields.any (fun p => p.1 = "result"))
  | .arr xs => some (xs.any (fun v => match v with | .str s => s = "result" | _ => false))
  | .str s => some (hasSubstr "result".toList s.toList)
  | _ => none

/-- Python `data["result"]` (app.py line 101): value lookup for a dict;
raises TypeError (modelled `none`) for any other JSON value. -/
def getResultValue : JVal → Option JVal
  | .obj fields => List.lookup "result" fields
  | _ => none

/-- Python `int(v, 16)` applied to a JSON value: only a string can be parsed
with an explicit base; anything else raises (modelled `none`). -/
def pyIntHexJVal : JVal → Option Int
  | .str s => pyIntHex s
  | _ => none

/-- The wei value one endpoint attempt yields, if any.  Every exception path
of the loop body (request failure, body not JSON, TypeError from the
membership test or the indexing, ValueError from hex decoding) is caught by
`except Exception: continue` (app.py lines 123-124), as is a parsed response
lacking a `result` field; all of these yield `none`. -/
def attemptWei : Attempt → Option Int
  | .exn => none
  | .ok data =>
    match containsResult data with
    | none => none
    | some false => none
    | some true =>
      match getResultValue data with
      | none => none
      | some v => pyIntHexJVal v

/-- Static per-chain configuration (app.py lines 29-67). -/
structure ChainConfig where
  name : String
  rpcs : List String
deriving DecidableEq

/-- The `CHAINS` table, in Python dict insertion order. -/
def CHAINS : List (String × ChainConfig) :=
  [ ("ethereum", ⟨"Ethereum",
      [ "https://ethereum.publicnode.com",
        "https://eth.drpc.org",
        "https://1rpc.io/eth" ]⟩),
    ("base", ⟨"Base",
      [ "https://base.publicnode.com",
        "https://base.drpc.org",
        "https://1rpc.io/base" ]⟩),
    ("arbitrum", ⟨"Arbitrum One",
      [ "https://arbitrum-one.publicnode.com",
        "https://arb1.arbitrum.io/rpc" ]⟩),
    ("optimism", ⟨"Optimism",
      [ "https://optimism.publicnode.com",
        "https://mainnet.optimism.io" ]⟩),
    ("polygon", ⟨"Polygon",
      [ "https://polygon-bor.publicnode.com",
        "https://polygon-rpc.com" ]⟩) ]

/-- Round-half-even at integer precision, the tie-breaking rule of Python's
`round`. -/
def roundHalfEven (q : ℚ) : ℤ :=
  if q - ⌊q⌋ < 1/2 then ⌊q⌋
  else if q - ⌊q⌋ > 1/2 then ⌊q⌋ + 1
  else if ⌊q⌋ % 2 = 0 then ⌊q⌋ else ⌊q⌋ + 1

/-- Python `round(q, 4)` (app.py line 118) on the exact-rational model. -/
def round4 (q : ℚ) : ℚ := (roundHalfEven (q * 10 ^ 4) : ℚ) / 10 ^ 4

/-- The level classification of app.py lines 104-111, on the exact gwei
value `wei / 1e9`. -/
def classifyLevel (gwei : ℚ) : String :=
  if gwei < 5 then "low"
  else if gwei < 20 then "medium"
  else if gwei < 50 then "high"
  else "extreme"

/-- Executable form of `classifyLevel (wei / 10^9)` over the integer wei
value; `classifyWei_eq` proves it equal to the source-level comparison. -/
def classifyWei (wei : ℤ) : String :=
  if wei < 5 * 10 ^ 9 then "low"
  else if wei < 20 * 10 ^ 9 then "medium"
  else if wei < 50 * 10 ^ 9 then "high"
  else "extreme"

/-- Executable form of `round(wei / 1e9, 4)`, returned in units of 10⁻⁴
gwei: the round-half-even of `wei / 10^5` computed with integer floor
division; `roundE4_eq` proves it implements `round4 (wei / 10^9) * 10^4`. -/
def roundE4 (wei : ℤ) : ℤ :=
  let q := wei / 10 ^ 5
  let r := wei % 10 ^ 5
  if r < 50000 then q
  else if r > 50000 then q + 1
  else if q % 2 = 0 then q else q + 1

/-- A successful reading, the dict built at app.py lines 113-121.  The
JSON number `gwei` of the dict is `gweiE4 / 10^4` (see `GasReading.gweiQ`):
rounding to 4 fractional digits makes 10⁻⁴ gwei an exact unit. -/
structure GasReading where
  chain : String
  name : String
  wei : ℤ
  gweiE4 : ℤ
  level : String
deriving DecidableEq

/-- The `gwei` number of the reading's dict, as the exact rational. -/
def GasReading.gweiQ (r : GasReading) : ℚ := (r.gweiE4 : ℚ) / 10 ^ 4

/-- The success dict of app.py lines 113-121 for a decoded wei value. -/
def mkReading (chain name : String) (wei : ℤ) : GasReading :=
  { chain := chain, name := name, wei := wei,
    gweiE4 := roundE4 wei,
    level := classifyWei wei }

/-- Result dictionary of `fetch_gas_price`: a reading, or a failure dict.
`failure none msg` is `\x7b"error": msg\x7d` (no chain key, app.py line 78);
`failure (some c) msg` is `\x7b"chain": c, "error": msg\x7d` (line 126). -/
inductive FetchResult where
  | reading (r : GasReading) : FetchResult
  | failure (chain : Option String) (error : String) : FetchResult
deriving DecidableEq

/-- The `chain` key of a fetch-result dict, when present on a failure. -/
def FetchResult.chainField : FetchResult → Option String
  | .reading r => some r.chain
  | .failure c _ => c

/-- The failover loop of app.py lines 82-124: try each endpoint in order,
return the first decoded wei value together with the list of endpoints
actually attempted. -/
def tryRpcs (net : Net) : List String → Option Int × List String
  | [] => (none, [])
  | rpc :: rest =>
    match attemptWei (net rpc) with
    | some w => (some w, [rpc])
    | none =>
      let p := tryRpcs net rest
      (p.1, rpc :: p.2)

/-- `fetch_gas_price` (app.py lines 75-126), instrumented with the list of
endpoints attempted (second component), for the no-network-call claims. -/
def fetchTrace (net : Net) (chain : String) : FetchResult × List String :=
  match List.lookup chain CHAINS with
  | none => (.failure none ("Unknown chain: " ++ chain), [])
  | some config =>
    match tryRpcs net config.rpcs with
    | (some w, tr) => (.reading (mkReading chain config.name w), tr)
    | (none, tr) => (.failure (some chain) "All RPCs failed", tr)

/-- `fetch_gas_price` proper: the returned result dictionary. -/
def fetch_gas_price (net : Net) (chain : String) : FetchResult :=
  (fetchTrace net chain).1

/-- `gas_all` (app.py lines 136-141): one fetch per configured chain, results
keyed by chain id in configuration order. -/
def gas_all (net : Net) : List (String × FetchResult) :=
  CHAINS.map (fun p => (p.1, fetch_gas_price net p.1))

/-- A ranking entry, the dict appended at app.py lines 150-154: chain id,
display name, and the rounded gwei value of a successful reading (in 10⁻⁴
gwei units, see `GasReading.gweiE4`). -/
structure Entry where
  chain : String
  name : String
  gweiE4 : ℤ
deriving DecidableEq

/-- The `gwei` number of a ranking-entry dict, as the exact rational. -/
def Entry.gweiQ (e : Entry) : ℚ := (e.gweiE4 : ℚ) / 10 ^ 4

/-- The `prices` list built by `gas_recommend` (app.py lines 146-154) and
identically by `premium_recommend` (lines 282-290): for each configured
chain, keep an entry iff the fetch result has a `gasPrice` key, i.e. is a
successful reading. -/
def successEntries (net : Net) : List Entry :=
  CHAINS.filterMap (fun p =>
    match fetch_gas_price net p.1 with
    | .reading r => some ⟨r.chain, r.name, r.gweiE4⟩
    | .failure _ _ => none)

/-- Stable insertion of an entry into a gwei-sorted list: the entry is
placed before the first element whose key is `≥` its own, so an element
originating earlier in the input stays ahead of later elements with an
equal key.  Comparison of the integer `gweiE4` keys is the same order as
comparison of the rational `gwei` keys (division by `10^4` is strictly
monotone). -/
def gweiInsert (a : Entry) : List Entry → List Entry
  | [] => [a]
  | b :: l => if a.gweiE4 ≤ b.gweiE4 then a :: b :: l else b :: gweiInsert a l

/-- `prices.sort(key=lambda x: x["gwei"])` (app.py line 159): Python's
`list.sort` is a stable ascending sort by the key; modelled as stable
insertion sort. -/
def pySortGwei : List Entry → List Entry
  | [] => []
  | a :: l => gweiInsert a (pySortGwei l)

/-- The successful `gas_recommend` payload (app.py lines 161-165).  The
`reason` f-string `"<name> has lowest gas at <gwei> gwei"` is kept as its
dynamic components `reasonName`/`reasonGweiE4` (the latter in 10⁻⁴ gwei
units, like `Entry.gweiE4`). -/
structure Recommendation where
  recommendation : String
  reasonName : String
  reasonGweiE4 : ℤ
  ranking : List Entry
deriving DecidableEq

/-- Return value of `gas_recommend` (app.py lines 144-165). -/
inductive RecommendResult where
  | err (msg : String) : RecommendResult
  | ok (rec : Recommendation) : RecommendResult
deriving DecidableEq

/-- `gas_recommend` (app.py lines 144-165).  The source checks `if not
prices` before sorting; since sorting preserves emptiness, matching on the
sorted list is the same test. -/
def gas_recommend (net : Net) : RecommendResult :=
  match pySortGwei (successEntries net) with
  | [] => .err "Could not fetch gas prices"
  | e :: rest =>
    .ok { recommendation := e.chain, reasonName := e.name, reasonGweiE4 := e.gweiE4,
          ranking := e :: rest }

/-- Configuration constants (app.py lines 19-26). -/
def RECIPIENT_WALLET : String := "0xaab80bc6b6040ae845ce225181fd72297ba71b13"

def NETWORK : String := "base"

def PRICING_premium_all : String := "0.001"

def PRICING_premium_recommend : String := "0.0005"

/-- `payment_header = request.headers.get("X-PAYMENT") or
request.headers.get("Payment")` (app.py lines 225, 258): Python `or`
returns the left operand when it is truthy (a present, non-empty string),
otherwise the right one. -/
def paymentHeaderOf (xpay pay : Option String) : Option String :=
  match xpay with
  | some s => if s = "" then pay else some s
  | none => pay

/-- Python `not payment_header`: true when the header is absent or empty. -/
def headerFalsy : Option String → Bool
  | none => true
  | some s => s = ""

/-- The 402 body content (price, currency, network, recipient, description)
shared by both premium endpoints. -/
structure PaymentRequired where
  price : String
  currency : String
  network : String
  recipient : String
  description : String
deriving DecidableEq

/-- Response of `premium_all` (app.py lines 221-253). -/
inductive PremiumAllResponse where
  | paymentRequired (p : PaymentRequired) : PremiumAllResponse
  | paid (data : List (String × FetchResult)) : PremiumAllResponse
deriving DecidableEq

/-- `premium_all` (app.py lines 221-253): with no truthy payment header,
402 with the configured pricing; otherwise its own per-chain fetch loop
(lines 250-252), wrapped as `\x7b"paid": true, "data": results\x7d`. -/
def premium_all (xpay pay : Option String) (net : Net) : PremiumAllResponse :=
  let h := paymentHeaderOf xpay pay
  if headerFalsy h then
    .paymentRequired ⟨PRICING_premium_all, "USDC", NETWORK, RECIPIENT_WALLET,
      "All chains gas prices"⟩
  else
    .paid (CHAINS.map (fun p => (p.1, fetch_gas_price net p.1)))

/-- The `reason` field of the paid `premium_recommend` body (app.py line
297): the same f-string as the free path when data exists, the literal
`"No data"` otherwise. -/
inductive PremiumReason where
  | info (name : String) (gweiE4 : ℤ) : PremiumReason
  | noData : PremiumReason
deriving DecidableEq

/-- The paid `premium_recommend` body (app.py lines 294-299). -/
structure PremiumRecommendPayload where
  paid : Bool
  recommendation : Option String
  reason : PremiumReason
  ranking : List Entry
deriving DecidableEq

/-- Response of `premium_recommend` (app.py lines 255-299). -/
inductive PremiumRecommendResponse where
  | paymentRequired (p : PaymentRequired) : PremiumRecommendResponse
  | paid (body : PremiumRecommendPayload) : PremiumRecommendResponse
deriving DecidableEq

/-- `premium_recommend` (app.py lines 255-299): with no truthy payment
header, 402; otherwise it rebuilds and sorts the prices list exactly as
`gas_recommend` does, but returns `recommendation: None`, `reason: "No
data"` and an empty ranking, still under `paid: true`, when the list is
empty. -/
def premium_recommend (xpay pay : Option String) (net : Net) : PremiumRecommendResponse :=
  let h := paymentHeaderOf xpay pay
  if headerFalsy h then
    .paymentRequired ⟨PRICING_premium_recommend, "USDC", NETWORK, RECIPIENT_WALLET,
      "Smart chain recommendation"⟩
  else
    match pySortGwei (successEntries net) with
    | [] => .paid { paid := true, recommendation := none, reason := .noData, ranking := [] }
    | e :: rest =>
      .paid { paid := true, recommendation := some e.chain,
              reason := .info e.name e.gweiE4, ranking := e :: rest }

/-- JSON rendering of a fetch-result dict, mirroring the dict shapes of
app.py lines 78, 113-121 and 126 as serialized by `json.dumps`. -/
def renderFetchResult : FetchResult → JVal
  | .reading r =>
    .obj [ ("chain", .str r.chain), ("name", .str r.name),
           ("gasPrice", .obj [("wei", .num (r.wei : ℚ)), ("gwei", .num r.gweiQ)]),
           ("level", .str r.level) ]
  | .failure none msg => .obj [("error", .str msg)]
  | .failure (some c) msg => .obj [("chain", .str c), ("error", .str msg)]

/-- JSON payload of `gas_all` (app.py line 141). -/
def renderGasAll (net : Net) : JVal :=
  .obj ((gas_all net).map (fun p => (p.1, renderFetchResult p.2)))

/-- JSON payload of a paid `premium_all` response (app.py line 253). -/
def renderPremiumAll : PremiumAllResponse → JVal
  | .paymentRequired p =>
    .obj [ ("error", .str "Payment required"), ("price", .str p.price),
           ("currency", .str p.currency), ("network", .str p.network),
           ("recipient", .str p.recipient), ("description", .str p.description) ]
  | .paid data => .obj [ ("paid", .bool true),
      ("data", .obj (data.map (fun p => (p.1, renderFetchResult p.2)))) ]

/-- First key of a JSON object, used to distinguish rendered payloads. -/
def JVal.firstKey : JVal → Option String
  | .obj (f :: _) => some f.1
  | _ => none

/-! ### Concrete network environments used to instantiate the theorems. -/

/-- Every endpoint raises. -/
def netExn : Net := fun _ => .exn

/-- Every endpoint answers `\x7b"result": "0x12a05f200"\x7d`: 5000000000 wei,
exactly 5 gwei. -/
def netFive : Net := fun _ => .ok (.obj [("result", .str "0x12a05f200")])

/-- Ethereum's first endpoint raises, its second returns JSON without a
`result` field, its third answers 30 gwei (0x6fc23ac00 = 30000000000 wei). -/
def netThird : Net := fun rpc =>
  if rpc = "https://ethereum.publicnode.com" then .exn
  else if rpc = "https://eth.drpc.org" then .ok (.obj [("jsonrpc", .str "2.0")])
  else if rpc = "https://1rpc.io/eth" then .ok (.obj [("result", .str "0x6fc23ac00")])
  else .exn

/-- Ethereum answers 30 gwei, Base answers 10 gwei (0x2540be400 =
10000000000 wei), every other chain's endpoints raise. -/
def netTwo : Net := fun rpc =>
  if rpc = "https://ethereum.publicnode.com" then .ok (.obj [("result", .str "0x6fc23ac00")])
  else if rpc = "https://base.publicnode.com" then .ok (.obj [("result", .str "0x2540be400")])
  else .exn

/-! ## Bridging lemmas: the executable integer forms compute the
source-level rational rounding and classification. -/

theorem classifyWei_eq (w : ℤ) : classifyWei w = classifyLevel ((w : ℚ) / 10 ^ 9) := by
  have c5 : ((w : ℚ) / 10 ^ 9 < 5) ↔ (w < 5 * 10 ^ 9) := by
    rw [div_lt_iff₀ (by norm_num)]
    constructor
    · intro h; exact_mod_cast h
    · intro h; exact_mod_cast h
  have c20 : ((w : ℚ) / 10 ^ 9 < 20) ↔ (w < 20 * 10 ^ 9) := by
    rw [div_lt_iff₀ (by norm_num)]
    constructor
    · intro h; exact_mod_cast h
    · intro h; exact_mod_cast h
  have c50 : ((w : ℚ) / 10 ^ 9 < 50) ↔ (w < 50 * 10 ^ 9) := by
    rw [div_lt_iff₀ (by norm_num)]
    constructor
    · intro h; exact_mod_cast h
    · intro h; exact_mod_cast h
  simp only [classifyWei, classifyLevel, c5, c20, c50]

theorem roundHalfEven_int_div (w : ℤ) :
    roundHalfEven ((w : ℚ) / 10 ^ 5) = roundE4 w := by
  have hfloor : ⌊(w : ℚ) / 10 ^ 5⌋ = w / 10 ^ 5 := by
    have := Rat.floor_intCast_div_natCast w (10 ^ 5)
    push_cast at this
    exact_mod_cast this
  have hfrac : (w : ℚ) / 10 ^ 5 - ((w / 10 ^ 5 : ℤ) : ℚ) = ((w % 10 ^ 5 : ℤ) : ℚ) / 10 ^ 5 := by
    rw [eq_div_iff (by norm_num : (10 ^ 5 : ℚ) ≠ 0), sub_mul,
      div_mul_cancel₀ _ (by norm_num : (10 ^ 5 : ℚ) ≠ 0)]
    have hid : w - (w / 10 ^ 5) * 10 ^ 5 = w % 10 ^ 5 := by omega
    exact_mod_cast hid
  have hlt : (((w % 10 ^ 5 : ℤ) : ℚ) / 10 ^ 5 < 1 / 2) ↔ (w % 10 ^ 5 < 50000) := by
    rw [div_lt_div_iff₀ (by norm_num) (by norm_num)]
    constructor
    · intro h
      have h2 : (w % 10 ^ 5) * 2 < 1 * 10 ^ 5 := by exact_mod_cast h
      omega
    · intro h
      have h2 : (w % 10 ^ 5) * 2 < 1 * 10 ^ 5 := by omega
      exact_mod_cast h2
  have hgt : (((w % 10 ^ 5 : ℤ) : ℚ) / 10 ^ 5 > 1 / 2) ↔ (w % 10 ^ 5 > 50000) := by
    rw [gt_iff_lt, div_lt_div_iff₀ (by norm_num) (by norm_num)]
    constructor
    · intro h
      have h2 : (1 : ℤ) * 10 ^ 5 < (w % 10 ^ 5) * 2 := by exact_mod_cast h
      omega
    · intro h
      have h2 : (1 : ℤ) * 10 ^ 5 < (w % 10 ^ 5) * 2 := by omega
      exact_mod_cast h2
  simp only [roundHalfEven, roundE4, hfloor, hfrac, hlt, hgt]

theorem roundE4_eq (w : ℤ) : (roundE4 w : ℚ) / 10 ^ 4 = round4 ((w : ℚ) / 10 ^ 9) := by
  have harg : ((w : ℚ) / 10 ^ 9) * 10 ^ 4 = (w : ℚ) / 10 ^ 5 := by
    field_simp
    ring
  rw [round4, harg, roundHalfEven_int_div]

/-- The reading built for a decoded wei value carries the level assigned by
the source's comparisons on the exact gwei value `wei / 1e9`. -/
theorem mkReading_level (chain name : String) (w : ℤ) :
    (mkReading chain name w).level = classifyLevel ((w : ℚ) / 10 ^ 9) :=
  classifyWei_eq w

/-- The reading built for a decoded wei value carries the gwei number
`round(wei / 1e9, 4)` of the source. -/
theorem mkReading_gweiQ (chain name : String) (w : ℤ) :
    (mkReading chain name w).gweiQ = round4 ((w : ℚ) / 10 ^ 9) :=
  roundE4_eq w

/-- The integer ranking keys compare exactly as the rational gwei values
they denote. -/
theorem Entry.gweiE4_le_iff (a b : Entry) : a.gweiE4 ≤ b.gweiE4 ↔ a.gweiQ ≤ b.gweiQ := by
  unfold Entry.gweiQ
  rw [div_le_div_iff_of_pos_right (by norm_num)]
  exact ⟨fun h => by exact_mod_cast h, fun h => by exact_mod_cast h⟩

/-! ## The failover loop. -/

/-- If every endpoint attempt yields no wei value, the loop exhausts the
whole list. -/
theorem tryRpcs_all_fail (net : Net) (rs : List String)
    (h : ∀ r ∈ rs, attemptWei (net r) = none) :
    tryRpcs net rs = (none, rs) := by
  induction rs with
  | nil => rfl
  | cons r rest ih =>
    have hr : attemptWei (net r) = none := h r (List.mem_cons_self r rest)
    have hrest : ∀ x ∈ rest, attemptWei (net x) = none :=
      fun x hx => h x (List.mem_cons_of_mem r hx)
    simp [tryRpcs, hr, ih hrest]

/-- If position `i` is the first endpoint whose attempt yields a wei value,
the loop stops there: it returns that value having attempted exactly the
first `i + 1` endpoints. -/
theorem tryRpcs_first_success (net : Net) (rs : List String) (i : ℕ)
    (hi : i < rs.length) (w : ℤ)
    (hw : attemptWei (net (rs.get ⟨i, hi⟩)) = some w)
    (hprev : ∀ j (hj : j < i), attemptWei (net (rs.get ⟨j, hj.trans hi⟩)) = none) :
    tryRpcs net rs = (some w, rs.take (i + 1)) := by
  induction rs generalizing i with
  | nil => exact absurd hi (Nat.not_lt_zero i)
  | cons r rest ih =>
    cases i with
    | zero =>
      simp only [List.get] at hw
      simp [tryRpcs, hw]
    | succ i =>
      have hr : attemptWei (net r) = none := hprev 0 (Nat.succ_pos i)
      have hi' : i < rest.length := Nat.lt_of_succ_lt_succ hi
      have hw' : attemptWei (net (rest.get ⟨i, hi'⟩)) = some w := hw
      have hprev' : ∀ j (hj : j < i),
          attemptWei (net (rest.get ⟨j, hj.trans hi'⟩)) = none :=
        fun j hj => hprev (j + 1) (Nat.succ_lt_succ hj)
      simp [tryRpcs, hr, ih i hi' hw' hprev']

/-! ## The stable sort. -/

/-- Insertion produces a permutation: the inserted element joins the list. -/
theorem gweiInsert_perm (a : Entry) (l : List Entry) :
    (gweiInsert a l).Perm (a :: l) := by
  induction l with
  | nil => rfl
  | cons b l ih =>
    by_cases h : a.gweiE4 ≤ b.gweiE4
    · simp [gweiInsert, h]
    · simp only [gweiInsert, if_neg h]
      exact (ih.cons b).trans (List.Perm.swap a b l)

/-- The sort is a permutation of its input. -/
theorem pySortGwei_perm (l : List Entry) : (pySortGwei l).Perm l := by
  induction l with
  | nil => rfl
  | cons a l ih => exact (gweiInsert_perm a (pySortGwei l)).trans (ih.cons a)

/-- Insertion preserves ascending order of the keys. -/
theorem gweiInsert_pairwise (a : Entry) (l : List Entry)
    (h : l.Pairwise (fun x y => x.gweiE4 ≤ y.gweiE4)) :
    (gweiInsert a l).Pairwise (fun x y => x.gweiE4 ≤ y.gweiE4) := by
  induction l with
  | nil => simp [gweiInsert]
  | cons b l ih =>
    rcases List.pairwise_cons.mp h with ⟨hb, hl⟩
    by_cases hab : a.gweiE4 ≤ b.gweiE4
    · rw [gweiInsert, if_pos hab]
      refine List.pairwise_cons.mpr ⟨?_, h⟩
      intro x hx
      rcases List.mem_cons.mp hx with rfl | hx
      · exact hab
      · exact le_trans hab (hb x hx)
    · rw [gweiInsert, if_neg hab]
      refine List.pairwise_cons.mpr ⟨?_, ih hl⟩
      intro x hx
      have hx' : x ∈ a :: l := (gweiInsert_perm a l).mem_iff.mp hx
      rcases List.mem_cons.mp hx' with rfl | hx'
      · exact le_of_not_le hab
      · exact hb x hx'

/-- The sort output is ascending in the keys. -/
theorem pySortGwei_pairwise (l : List Entry) :
    (pySortGwei l).Pairwise (fun x y => x.gweiE4 ≤ y.gweiE4) := by
  induction l with
  | nil => simp [pySortGwei]
  | cons a l ih => exact gweiInsert_pairwise a (pySortGwei l) ih

/-- Elements passed over by an insertion have strictly smaller keys, so the
insertion does not disturb the sublist of any fixed key. -/
theorem gweiInsert_filter (a : Entry) (l : List Entry) (g : ℤ) :
    (gweiInsert a l).filter (fun e => e.gweiE4 = g) =
      if a.gweiE4 = g then a :: l.filter (fun e => e.gweiE4 = g)
      else l.filter (fun e => e.gweiE4 = g) := by
  induction l with
  | nil => by_cases h : a.gweiE4 = g <;> simp [gweiInsert, List.filter, h]
  | cons b l ih =>
    rw [gweiInsert]
    by_cases hab : a.gweiE4 ≤ b.gweiE4
    · rw [if_pos hab]
      by_cases h : a.gweiE4 = g <;> simp [List.filter_cons, h]
    · rw [if_neg hab]
      by_cases h : a.gweiE4 = g
      · have hbg : ¬ b.gweiE4 = g := by omega
        simp [List.filter_cons, hbg, ih, h]
      · simp [List.filter_cons, ih, h]

/-- Stability: within each key class, the sort preserves the input order. -/
theorem pySortGwei_filter (l : List Entry) (g : ℤ) :
    (pySortGwei l).filter (fun e => e.gweiE4 = g) =
      l.filter (fun e => e.gweiE4 = g) := by
  induction l with
  | nil => rfl
  | cons a l ih =>
    rw [pySortGwei, gweiInsert_filter]
    by_cases h : a.gweiE4 = g <;> simp [List.filter_cons, h, ih]

/-! ## Shape of fetch results. -/

/-- Inversion: a successful fetch result is the reading built by the success
branch for its own decoded wei value, keyed by the requested chain. -/
theorem fetch_reading_inv (net : Net) (chain : String) (r : GasReading)
    (h : fetch_gas_price net chain = .reading r) :
    r = mkReading chain r.name r.wei := by
  unfold fetch_gas_price fetchTrace at h
  cases hc : List.lookup chain CHAINS with
  | none => simp only [hc] at h; exact absurd h (by simp)
  | some cfg =>
    simp only [hc] at h
    rcases ht : tryRpcs net cfg.rpcs with ⟨o, tr⟩
    simp only [ht] at h
    cases o with
    | none => simp at h
    | some w =>
      simp only [FetchResult.reading.injEq] at h
      rw [← h]
      rfl

/-- Looking a present key up in an association list whose values were
rebuilt per key returns the rebuilt value of that key. -/
theorem lookup_map_value {β : Type} (f : String → β) :
    ∀ (l : List (String × ChainConfig)) (c : String), (List.lookup c l).isSome →
      List.lookup c (l.map (fun p => (p.1, f p.1))) = some (f c) := by
  intro l
  induction l with
  | nil => intro c h; simp [List.lookup] at h
  | cons p t ih =>
    intro c h
    by_cases hc : c = p.1
    · subst hc; simp [List.lookup]
    · have hb : (c == p.1) = false := beq_false_of_ne hc
      simp only [List.map, List.lookup, hb] at h ⊢
      exact ih c h

/-- A JSON value on which `data["result"]` yields a value is a dict that
passes the `"result" in data` membership test. -/
theorem containsResult_of_getResultValue (d v : JVal)
    (h : getResultValue d = some v) : containsResult d = some true := by
  cases d <;> simp only [getResultValue] at h <;> try exact absurd h (by simp)
  case obj fields =>
    simp only [containsResult, Option.some.injEq]
    induction fields with
    | nil => simp [List.lookup] at h
    | cons p t ih =>
      by_cases hp : "result" = p.1
      · simp [← hp]
      · have hb : ("result" == p.1) = false := beq_false_of_ne hp
        simp only [List.lookup, hb] at h
        have := ih h
        simp [List.any_cons, this]

/-! ## Claim theorems. -/

/-- C5 counterexample: for the unknown chain identifier "dogecoin",
`fetch_gas_price` returns the dict `\x7b"error": "Unknown chain: dogecoin"\x7d`
with NO chain field (`chainField` is `none`, where the claim requires the
failure to carry the chainId), and no endpoint is attempted. -/
theorem C5_counterexample :
    fetchTrace netExn "dogecoin" =
      (FetchResult.failure none "Unknown chain: dogecoin", []) ∧
    (fetch_gas_price netExn "dogecoin").chainField = none := by
  exact ⟨by decide, by decide⟩

/-- C5 (amended): for every chain identifier not present in the
configuration table, `fetch_gas_price` immediately returns a failure whose
message is "Unknown chain: <chainId>" — the chainId appears only inside the
message, not as a separate field — and no endpoint is attempted (the trace
of attempted endpoints is empty). -/
theorem C5_unknown_chain (net : Net) (chain : String)
    (h : List.lookup chain CHAINS = none) :
    fetchTrace net chain = (.failure none ("Unknown chain: " ++ chain), []) := by
  unfold fetchTrace
  simp [h]

/-- C5 witness: instantiated at the unknown chain "solana". -/
theorem C5_witness :
    List.lookup "solana" CHAINS = none ∧
    fetchTrace netExn "solana" = (.failure none "Unknown chain: solana", []) :=
  ⟨by decide, C5_unknown_chain netExn "solana" (by decide)⟩

/-- C7: for every known chain, if every configured endpoint attempt yields
no wei value (raises, fails to parse, or lacks a decodable `result`), then
`fetch_gas_price` returns the failure dict with the chainId and the message
"All RPCs failed". -/
theorem C7_all_rpcs_failed (net : Net) (chain : String) (cfg : ChainConfig)
    (hc : List.lookup chain CHAINS = some cfg)
    (hfail : ∀ rpc ∈ cfg.rpcs, attemptWei (net rpc) = none) :
    fetch_gas_price net chain = .failure (some chain) "All RPCs failed" := by
  unfold fetch_gas_price fetchTrace
  simp [hc, tryRpcs_all_fail net cfg.rpcs hfail]

/-- C7 witness: every Ethereum endpoint raises. -/
theorem C7_witness :
    List.lookup "ethereum" CHAINS = some ⟨"Ethereum",
      ["https://ethereum.publicnode.com", "https://eth.drpc.org", "https://1rpc.io/eth"]⟩ ∧
    fetch_gas_price netExn "ethereum" = .failure (some "ethereum") "All RPCs failed" :=
  ⟨by decide, C7_all_rpcs_failed netExn "ethereum" ⟨"Ethereum",
    ["https://ethereum.publicnode.com", "https://eth.drpc.org", "https://1rpc.io/eth"]⟩
    (by decide) (by decide)⟩

/-- C10: `fetch_gas_price` is total over every network behaviour (any mix of
raising endpoints and arbitrary parsed JSON): it always returns a result
dictionary — a reading for the requested chain, the unknown-chain failure,
or the all-RPCs-failed failure — and never anything else. -/
theorem C10_total (net : Net) (chain : String) :
    (∃ r : GasReading, fetch_gas_price net chain = .reading r ∧ r.chain = chain) ∨
    fetch_gas_price net chain = .failure none ("Unknown chain: " ++ chain) ∨
    fetch_gas_price net chain = .failure (some chain) "All RPCs failed" := by
  unfold fetch_gas_price fetchTrace
  cases hc : List.lookup chain CHAINS with
  | none => right; left; simp [hc]
  | some cfg =>
    rcases ht : tryRpcs net cfg.rpcs with ⟨o, tr⟩
    cases o with
    | some w =>
      left
      exact ⟨mkReading chain cfg.name w, by simp [hc, ht], rfl⟩
    | none =>
      right; right
      simp [hc, ht]

/-- C2: the level carried by every reading `fetch_gas_price` returns follows
the half-open threshold table on the exact gwei value `wei / 1e9`: `[0,5)`
maps to low, `[5,20)` to medium, `[20,50)` to high, `[50,∞)` to extreme,
with each boundary belonging to the upper bucket. -/
theorem C2_thresholds (net : Net) (chain : String) (r : GasReading)
    (h : fetch_gas_price net chain = .reading r) :
    (0 ≤ (r.wei : ℚ) / 10 ^ 9 ∧ (r.wei : ℚ) / 10 ^ 9 < 5 → r.level = "low") ∧
    (5 ≤ (r.wei : ℚ) / 10 ^ 9 ∧ (r.wei : ℚ) / 10 ^ 9 < 20 → r.level = "medium") ∧
    (20 ≤ (r.wei : ℚ) / 10 ^ 9 ∧ (r.wei : ℚ) / 10 ^ 9 < 50 → r.level = "high") ∧
    (50 ≤ (r.wei : ℚ) / 10 ^ 9 → r.level = "extreme") := by
  have hr := fetch_reading_inv net chain r h
  have hl : r.level = classifyLevel ((r.wei : ℚ) / 10 ^ 9) := by
    conv_lhs => rw [hr]
    exact mkReading_level chain r.name r.wei
  rw [hl]
  unfold classifyLevel
  refine ⟨?_, ?_, ?_, ?_⟩
  · rintro ⟨-, h1⟩
    rw [if_pos h1]
  · rintro ⟨h1, h2⟩
    rw [if_neg (not_lt.mpr h1), if_pos h2]
  · rintro ⟨h1, h2⟩
    rw [if_neg (by linarith), if_neg (not_lt.mpr h1), if_pos h2]
  · intro h1
    rw [if_neg (by linarith), if_neg (by linarith), if_neg (not_lt.mpr h1)]

/-- C2 witness: a network answering exactly 5000000000 wei (5 gwei, the
low/medium boundary) yields a reading classified "medium". -/
theorem C2_witness :
    fetch_gas_price netFive "ethereum" =
      .reading (mkReading "ethereum" "Ethereum" 5000000000) ∧
    (5 ≤ ((mkReading "ethereum" "Ethereum" 5000000000).wei : ℚ) / 10 ^ 9 ∧
      ((mkReading "ethereum" "Ethereum" 5000000000).wei : ℚ) / 10 ^ 9 < 20) ∧
    (mkReading "ethereum" "Ethereum" 5000000000).level = "medium" :=
  ⟨by decide, ⟨by norm_num [mkReading], by norm_num [mkReading]⟩,
    (C2_thresholds netFive "ethereum" (mkReading "ethereum" "Ethereum" 5000000000)
      (by decide)).2.1 ⟨by norm_num [mkReading], by norm_num [mkReading]⟩⟩

/-- C1: for every known chain, the endpoints are tried in configured order;
if position `i` is the first endpoint whose attempt yields a decoded wei
value — its response parsed as JSON (`ok d`), carried a `result` field
(`getResultValue d = some v`) and the hex string decoded (`some w`), while
every earlier endpoint's attempt errored or produced no decodable `result`
(`attemptWei _ = none`, the soft failures that are skipped) — then
`fetch_gas_price` returns the successful reading built from `w` having
attempted exactly the first `i + 1` endpoints and no further one. -/
theorem C1_failover (net : Net) (chain : String) (cfg : ChainConfig) (i : ℕ)
    (d v : JVal) (w : ℤ)
    (hc : List.lookup chain CHAINS = some cfg)
    (hi : i < cfg.rpcs.length)
    (hok : net (cfg.rpcs.get ⟨i, hi⟩) = .ok d)
    (hres : getResultValue d = some v)
    (hdec : pyIntHexJVal v = some w)
    (hprev : ∀ j (hj : j < i), attemptWei (net (cfg.rpcs.get ⟨j, hj.trans hi⟩)) = none) :
    fetchTrace net chain =
      (.reading (mkReading chain cfg.name w), cfg.rpcs.take (i + 1)) := by
  have hmem : containsResult d = some true := containsResult_of_getResultValue d v hres
  have hw : attemptWei (net (cfg.rpcs.get ⟨i, hi⟩)) = some w := by
    rw [hok]
    simp [attemptWei, hmem, hres, hdec]
  unfold fetchTrace
  simp [hc, tryRpcs_first_success net cfg.rpcs i hi w hw hprev]

/-- C1 witness: the spec's failover scenario — Ethereum's first endpoint
raises, the second returns JSON lacking `result`, the third succeeds with
30 gwei; exactly three endpoints are attempted and the third's value is
returned. -/
theorem C1_witness :
    netThird "https://ethereum.publicnode.com" = Attempt.exn ∧
    attemptWei (netThird "https://eth.drpc.org") = none ∧
    fetchTrace netThird "ethereum" =
      (.reading (mkReading "ethereum" "Ethereum" 30000000000),
       ["https://ethereum.publicnode.com", "https://eth.drpc.org", "https://1rpc.io/eth"]) :=
  ⟨rfl, rfl,
    C1_failover netThird "ethereum"
      ⟨"Ethereum", ["https://ethereum.publicnode.com", "https://eth.drpc.org", "https://1rpc.io/eth"]⟩
      2 (.obj [("result", .str "0x6fc23ac00")]) (.str "0x6fc23ac00") 30000000000
      (by decide) (by decide) rfl rfl (by decide)
      (by
        intro j hj
        interval_cases j <;> rfl)⟩

/-- C6: `gas_all` returns a mapping whose keys are exactly the configured
chains in configuration order (no omission), and the entry of every
configured chain is exactly that chain's own `fetch_gas_price` result —
so one chain's failure cannot abort or affect any other chain's entry. -/
theorem C6_gas_all (net : Net) :
    (gas_all net).map Prod.fst = CHAINS.map Prod.fst ∧
    ∀ chain : String, (List.lookup chain CHAINS).isSome = true →
      List.lookup chain (gas_all net) = some (fetch_gas_price net chain) := by
  constructor
  · simp [gas_all]
  · intro c hc
    exact lookup_map_value (fetch_gas_price net) CHAINS c hc

/-- C6 witness: with only Ethereum and Base reachable, the last configured
chain "polygon" still has its own (failure) entry in the mapping. -/
theorem C6_witness :
    (List.lookup "polygon" CHAINS).isSome = true ∧
    List.lookup "polygon" (gas_all netTwo) = some (fetch_gas_price netTwo "polygon") ∧
    fetch_gas_price netTwo "polygon" = .failure (some "polygon") "All RPCs failed" :=
  ⟨by decide, (C6_gas_all netTwo).2 "polygon" (by decide), by decide⟩

/-- Rounding a value that is already an integer returns that integer. -/
theorem roundHalfEven_intCast (n : ℤ) : roundHalfEven (n : ℚ) = n := by
  unfold roundHalfEven
  rw [Int.floor_intCast]
  rw [if_pos (by norm_num)]

/-- C8: the wei→gwei conversion is exact for values representable in 4
fractional digits (wei divisible by 10^5): rounding introduces no drift. -/
theorem C8_exact (w : ℤ) (h : (10 : ℤ) ^ 5 ∣ w) :
    round4 ((w : ℚ) / 10 ^ 9) = (w : ℚ) / 10 ^ 9 := by
  obtain ⟨k, rfl⟩ := h
  have harg : ((10 ^ 5 * k : ℤ) : ℚ) / 10 ^ 9 * 10 ^ 4 = ((k : ℤ) : ℚ) := by
    push_cast
    field_simp
    ring
  rw [round4, harg, roundHalfEven_intCast]
  push_cast
  field_simp
  ring

/-- C8 witness: 21000000000 wei converts to exactly 21.0 gwei. -/
theorem C8_witness :
    (10 : ℤ) ^ 5 ∣ 21000000000 ∧ round4 ((21000000000 : ℚ) / 10 ^ 9) = 21 := by
  have hd : (10 : ℤ) ^ 5 ∣ 21000000000 := ⟨210000, by norm_num⟩
  refine ⟨hd, ?_⟩
  have hc : ((21000000000 : ℤ) : ℚ) = (21000000000 : ℚ) := by norm_cast
  have := C8_exact 21000000000 hd
  rw [hc] at this
  rw [this]
  norm_num

/-- C3: every successful `gas_recommend` ranking is a permutation of
exactly the successful entries (every failed chain is excluded), ascending
in the gwei value, stable (within each equal-gwei class the original
configuration order of the chains is preserved), and the recommendation
and reason are taken from the first ranked entry. -/
theorem C3_recommend (net : Net) (R : Recommendation)
    (h : gas_recommend net = .ok R) :
    R.ranking.Perm (successEntries net) ∧
    R.ranking.Pairwise (fun a b => a.gweiQ ≤ b.gweiQ) ∧
    (∀ g : ℤ, R.ranking.filter (fun e => e.gweiE4 = g) =
      (successEntries net).filter (fun e => e.gweiE4 = g)) ∧
    R.ranking.head? = some ⟨R.recommendation, R.reasonName, R.reasonGweiE4⟩ := by
  unfold gas_recommend at h
  rcases hs : pySortGwei (successEntries net) with _ | ⟨e, rest⟩ <;> rw [hs] at h
  · exact absurd h (by simp)
  · simp only [RecommendResult.ok.injEq] at h
    have hrank : R.ranking = e :: rest := by rw [← h]
    have hrec : R.recommendation = e.chain := by rw [← h]
    have hname : R.reasonName = e.name := by rw [← h]
    have hgw : R.reasonGweiE4 = e.gweiE4 := by rw [← h]
    refine ⟨?_, ?_, ?_, ?_⟩
    · rw [hrank, ← hs]
      exact pySortGwei_perm _
    · rw [hrank, ← hs]
      exact (pySortGwei_pairwise _).imp fun hab => (Entry.gweiE4_le_iff _ _).mp hab
    · intro g
      rw [hrank, ← hs]
      exact pySortGwei_filter _ g
    · rw [hrank, hrec, hname, hgw]
      rfl

/-- C3 witness: the spec's example — Ethereum at 30 gwei, Base at 10 gwei,
all other chains failing — recommends Base with ranking Base(10) before
Ethereum(30) and no entry for the failed chains. -/
theorem C3_witness :
    successEntries netTwo =
      [⟨"ethereum", "Ethereum", 300000⟩, ⟨"base", "Base", 100000⟩] ∧
    gas_recommend netTwo = .ok ⟨"base", "Base", 100000,
      [⟨"base", "Base", 100000⟩, ⟨"ethereum", "Ethereum", 300000⟩]⟩ ∧
    ([⟨"base", "Base", 100000⟩, ⟨"ethereum", "Ethereum", 300000⟩] : List Entry).Perm
      (successEntries netTwo) ∧
    ([⟨"base", "Base", 100000⟩, ⟨"ethereum", "Ethereum", 300000⟩] : List Entry).Pairwise
      (fun a b => a.gweiQ ≤ b.gweiQ) ∧
    (∀ g : ℤ,
      ([⟨"base", "Base", 100000⟩, ⟨"ethereum", "Ethereum", 300000⟩] : List Entry).filter
        (fun e => e.gweiE4 = g) =
      (successEntries netTwo).filter (fun e => e.gweiE4 = g)) ∧
    ([⟨"base", "Base", 100000⟩, ⟨"ethereum", "Ethereum", 300000⟩] : List Entry).head? =
      some ⟨"base", "Base", 100000⟩ := by
  have h := C3_recommend netTwo ⟨"base", "Base", 100000,
    [⟨"base", "Base", 100000⟩, ⟨"ethereum", "Ethereum", 300000⟩]⟩ (by decide)
  exact ⟨by decide, by decide, h.1, h.2.1, h.2.2.1, h.2.2.2⟩

/-- C4 counterexample: with every chain failing, the paid
`premium_recommend` does NOT signal a distinct no-data error result: it
returns the ordinary paid payload shape with `recommendation: null`,
reason "No data" and an empty ranking, while the free `gas_recommend` does
return the distinct error dict. -/
theorem C4_counterexample :
    premium_recommend (some "payment-proof") none netExn =
      .paid { paid := true, recommendation := none, reason := .noData, ranking := [] } ∧
    gas_recommend netExn = .err "Could not fetch gas prices" :=
  ⟨by decide, by decide⟩

/-- C4 (amended): when every chain's fetch fails, the free `gas_recommend`
signals the distinct error result `\x7b"error": "Could not fetch gas
prices"\x7d`; the paid `premium_recommend`, by contrast, returns a success
payload with a null recommendation, reason "No data" and an empty ranking
— it does not signal a distinct no-data error. -/
theorem C4_no_data (net : Net) (h : successEntries net = []) :
    gas_recommend net = .err "Could not fetch gas prices" ∧
    ∀ xpay pay : Option String, headerFalsy (paymentHeaderOf xpay pay) = false →
      premium_recommend xpay pay net =
        .paid { paid := true, recommendation := none, reason := .noData, ranking := [] } := by
  constructor
  · unfold gas_recommend
    rw [h]
    rfl
  · intro xpay pay hh
    simp [premium_recommend, hh, h, pySortGwei]

/-- C4 witness: instantiated at the all-raising network with a non-empty
payment header. -/
theorem C4_witness :
    successEntries netExn = [] ∧
    headerFalsy (paymentHeaderOf (some "payment-proof") none) = false ∧
    gas_recommend netExn = .err "Could not fetch gas prices" ∧
    premium_recommend (some "payment-proof") none netExn =
      .paid { paid := true, recommendation := none, reason := .noData, ranking := [] } := by
  have h := C4_no_data netExn (by decide)
  exact ⟨by decide, by decide, h.1, h.2 (some "payment-proof") none (by decide)⟩

/-- C9 counterexample: with a non-empty payment header, the JSON payload of
`premium_all` is not the same as the `gas_all` payload on the same fetch
results — the premium body wraps the data under `\x7b"paid": true, "data":
...\x7d` (its first key is "paid" where the free payload's first key is the
first chain id). -/
theorem C9_counterexample :
    JVal.firstKey (renderPremiumAll (premium_all (some "payment-proof") none netTwo))
      = some "paid" ∧
    JVal.firstKey (renderGasAll netTwo) = some "ethereum" ∧
    renderPremiumAll (premium_all (some "payment-proof") none netTwo) ≠
      renderGasAll netTwo :=
  ⟨rfl, rfl, fun h => absurd (congrArg JVal.firstKey h) (by decide)⟩

/-- C9 (amended): with any non-empty payment header, `premium_all` returns
the `gas_all` mapping wrapped as `\x7b"paid": true, "data": ...\x7d`, and
`premium_recommend` returns, under `paid: true`, exactly the
recommendation, reason components and ranking of the free `gas_recommend`
whenever at least one chain succeeded — the premium payloads embed the
free results rather than being byte-identical to them. -/
theorem C9_premium_free (net : Net) (xpay pay : Option String)
    (hh : headerFalsy (paymentHeaderOf xpay pay) = false) :
    premium_all xpay pay net = .paid (gas_all net) ∧
    ∀ R : Recommendation, gas_recommend net = .ok R →
      premium_recommend xpay pay net = .paid
        { paid := true, recommendation := some R.recommendation,
          reason := .info R.reasonName R.reasonGweiE4, ranking := R.ranking } := by
  constructor
  · simp [premium_all, hh, gas_all]
  · intro R hR
    unfold gas_recommend at hR
    rcases hs : pySortGwei (successEntries net) with _ | ⟨e, rest⟩ <;> rw [hs] at hR
    · exact absurd hR (by simp)
    · simp only [RecommendResult.ok.injEq] at hR
      simp only [premium_recommend, hh, hs, Bool.false_eq_true, if_false]
      rw [← hR]

/-- C9 witness: instantiated with Ethereum and Base reachable and a
non-empty payment header. -/
theorem C9_witness :
    headerFalsy (paymentHeaderOf (some "payment-proof") none) = false ∧
    premium_all (some "payment-proof") none netTwo = .paid (gas_all netTwo) ∧
    gas_recommend netTwo = .ok ⟨"base", "Base", 100000,
      [⟨"base", "Base", 100000⟩, ⟨"ethereum", "Ethereum", 300000⟩]⟩ ∧
    premium_recommend (some "payment-proof") none netTwo = .paid
      { paid := true, recommendation := some "base", reason := .info "Base" 100000,
        ranking := [⟨"base", "Base", 100000⟩, ⟨"ethereum", "Ethereum", 300000⟩] } := by
  have h := C9_premium_free netTwo (some "payment-proof") none (by decide)
  exact ⟨by decide, h.1, by decide,
    h.2 ⟨"base", "Base", 100000,
      [⟨"base", "Base", 100000⟩, ⟨"ethereum", "Ethereum", 300000⟩]⟩ (by decide)⟩
